import Mathlib

/-!
Shallow embedding of the statistics-aggregation core of the codeforces
"year in review" backend (src/app.py), together with theorems checking the
claims of the specification against it.

The embedding mirrors `generate_wrapped` (src/app.py lines 56-166): the
per-field computations of lines 90-144, the response dictionary of lines
147-160, the exception path of lines 164-166, the input validation of
lines 59-66, and the app-level exception handler of lines 43-51.

Machine details are modelled as follows: timestamps are integers (seconds
since the Unix epoch); `datetime.utcfromtimestamp(ts).date()` is the epoch
day number `ts.fdiv 86400` converted via the standard Gregorian
civil-from-days algorithm; the local timezone of the server is an explicit UTC
offset in seconds, so `datetime.now()` reads `utcNow + tzOffset` and a
naive `datetime(y, 1, 1).timestamp()` is the epoch second of local
midnight, i.e. `daysFromCivil y 1 1 * 86400 - tzOffset`.  Python dicts
with boolean keys (the milestone table) are modelled as association lists
with the update semantics of Python (an assignment to an existing key keeps its
insertion position).  JSON response payloads are association lists of
string keys to a string-or-integer value type.  Formatting of the
percentile float is modelled as exact rational rounding to two decimals;
no claim depends on its digits.
-/

/-- A JSON value as it appears in the response payloads of src/app.py
(only strings and integers occur there). -/
inductive JVal where
  | str (s : String)
  | int (n : Int)
  deriving DecidableEq, Repr

/-- A JSON value as it may arrive in the POST body for the `username`
field (src/app.py line 60): the handler must cope with any JSON type. -/
inductive PyVal where
  | pynull
  | pybool (b : Bool)
  | pyint (n : Int)
  | pystr (s : String)
  | pylist (elems : List PyVal)

/-- Python truthiness of a JSON-decoded value, as tested by
`if not username:` (src/app.py line 61). -/
def pyTruthy : PyVal → Bool
  | .pynull => false
  | .pybool b => b
  | .pyint n => n != 0
  | .pystr s => s != ""
  | .pylist l => !l.isEmpty

/-- Python `str.isalnum`: non-empty and every character alphanumeric
(src/app.py line 65). -/
def pyIsAlnum (s : String) : Bool :=
  !s.isEmpty && s.all Char.isAlphanum

/-- A problem as it appears inside a submission of the upstream
user.status payload. -/
structure Problem where
  contestId : Int
  index : String
  tags : List String
  deriving DecidableEq, Repr

/-- A submission from the upstream user.status payload. -/
structure Submission where
  problem : Problem
  verdict : String
  creationTimeSeconds : Int
  deriving DecidableEq, Repr

/-- A contest row from the upstream user.rating payload. -/
structure ContestResult where
  rank : Int
  oldRating : Int
  newRating : Int
  ratingUpdateTimeSeconds : Int
  deriving DecidableEq, Repr

/-- The fields of the upstream user.info payload that src/app.py reads
(lines 85, 91-92, 122-123, 127, 137); optional fields are `Option`. -/
structure UserData where
  rank : Option String
  maxRank : Option String
  rating : Option Int
  deriving DecidableEq, Repr

/-- Gregorian `civil_from_days`: calendar date (year, month, day) of an
epoch day number; models `datetime.utcfromtimestamp(ts).date()` once the
epoch day `ts.fdiv 86400` is taken. -/
def civilFromDays (z0 : Int) : Int × Int × Int :=
  let z := z0 + 719468
  let era := Int.fdiv z 146097
  let doe := z - era * 146097
  let yoe := Int.fdiv (doe - Int.fdiv doe 1460 + Int.fdiv doe 36524 - Int.fdiv doe 146096) 365
  let y := yoe + era * 400
  let doy := doe - (365 * yoe + Int.fdiv yoe 4 - Int.fdiv yoe 100)
  let mp := Int.fdiv (5 * doy + 2) 153
  let d := doy - Int.fdiv (153 * mp + 2) 5 + 1
  let m := mp + (if mp < 10 then 3 else -9)
  (y + (if m ≤ 2 then 1 else 0), m, d)

/-- Gregorian `days_from_civil`: epoch day number of a calendar date. -/
def daysFromCivil (y0 m d : Int) : Int :=
  let y := y0 - (if m ≤ 2 then 1 else 0)
  let era := Int.fdiv y 400
  let yoe := y - era * 400
  let mp := if 2 < m then m - 3 else m + 9
  let doy := Int.fdiv (153 * mp + 2) 5 + d - 1
  let doe := yoe * 365 + Int.fdiv yoe 4 - Int.fdiv yoe 100 + doy
  era * 146097 + doe - 719468

/-- UTC calendar year of an epoch timestamp. -/
def yearOfTs (ts : Int) : Int :=
  (civilFromDays (Int.fdiv ts 86400)).1

/-- English month name of a month number, as produced by
`strftime("%B")` (src/app.py line 130). -/
def monthName : Int → String
  | 1 => "January"
  | 2 => "February"
  | 3 => "March"
  | 4 => "April"
  | 5 => "May"
  | 6 => "June"
  | 7 => "July"
  | 8 => "August"
  | 9 => "September"
  | 10 => "October"
  | 11 => "November"
  | 12 => "December"
  | _ => ""

/-- UTC month name of an epoch timestamp: models
`datetime.utcfromtimestamp(ts).strftime("%B")`. -/
def monthOf (ts : Int) : String :=
  monthName (civilFromDays (Int.fdiv ts 86400)).2.1

/-- The year-boundary cutoff of src/app.py line 96,
`datetime(datetime.now().year, 1, 1).timestamp()`: `datetime.now()` reads
the local clock (`utcNow + tzOffset`) and calling `timestamp()` on the naive datetime interprets midnight Jan 1 in local time. -/
def localYearStart (utcNow tzOffset : Int) : Int :=
  daysFromCivil (yearOfTs (utcNow + tzOffset)) 1 1 * 86400 - tzOffset

/-- Modelled from the spec: the year boundary the specification
describes, the epoch second of 00:00:00 UTC on January 1 of the current
UTC year.  Kept separate from `localYearStart` (the boundary the code uses) so
the two can be compared. -/
def spec_utc_year_start (utcNow : Int) : Int :=
  daysFromCivil (yearOfTs utcNow) 1 1 * 86400

/-- The accepted-verdict test `sub["verdict"] == "OK"` used throughout
src/app.py lines 95-130. -/
def accepted (s : Submission) : Bool :=
  s.verdict == "OK"

/-- The problem-identity string of src/app.py lines 95 and 97: the
contestId and index joined by a hyphen, as the f-string there builds. -/
def probId (s : Submission) : String :=
  toString s.problem.contestId ++ "-" ++ s.problem.index

/-- The set comprehension of src/app.py line 95: distinct problem-identity
strings over accepted submissions. -/
def total_solved_calc (subs : List Submission) : Finset String :=
  ((subs.filter accepted).map probId).toFinset

/-- The set comprehension of src/app.py line 97: distinct problem-identity
strings over accepted submissions dated on/after the year boundary. -/
def yearly_solved_calc (subs : List Submission) (year_start : Int) : Finset String :=
  ((subs.filter fun s => accepted s && decide (year_start ≤ s.creationTimeSeconds)).map probId).toFinset

/-- Insertion sort (ascending) on integers; models Python `sorted` on the
deduplicated day numbers of src/app.py line 100. -/
def insertSorted (a : Int) : List Int → List Int
  | [] => [a]
  | b :: l => if a ≤ b then a :: b :: l else b :: insertSorted a l

/-- Ascending sort of a list of integers. -/
def sortInts (l : List Int) : List Int :=
  l.foldr insertSorted []

/-- The sorted set of accepted-submission UTC dates of src/app.py line
100, with dates as epoch day numbers. -/
def solved_days_calc (subs : List Submission) : List Int :=
  sortInts (((subs.filter accepted).map fun s => Int.fdiv s.creationTimeSeconds 86400).dedup)

/-- The streak loop of src/app.py lines 101-108, verbatim: start with
`longest, current = 0, 1`, scan consecutive (previous, next) day pairs,
extend the run on a gap of exactly one day, otherwise fold the run into
the maximum and restart at 1; finally take `max longest current`. -/
def longest_streak_calc (days : List Int) : Nat :=
  let step : Nat × Nat → Int × Int → Nat × Nat := fun lc pd =>
    if pd.2 = pd.1 + 1 then (lc.1, lc.2 + 1) else (max lc.1 lc.2, 1)
  let p := (days.zip (days.drop 1)).foldl step (0, 1)
  max p.1 p.2

/-- The tag tally list of src/app.py line 111: one entry per tag per
accepted submission. -/
def topics_calc (subs : List Submission) : List String :=
  ((subs.filter accepted).map fun s => s.problem.tags).flatten

/-- The month tally list of src/app.py line 130: one month name per
accepted submission. -/
def submission_months_calc (subs : List Submission) : List String :=
  (subs.filter accepted).map fun s => monthOf s.creationTimeSeconds

/-- Distinct elements of a list in order of first occurrence: the
iteration (insertion) order of a Python `Counter`. -/
def firstOccurrences (l : List String) : List String :=
  l.foldl (fun acc a => if a ∈ acc then acc else acc ++ [a]) []

/-- The head of `Counter(l).most_common(1)` as used on src/app.py lines
112 and 131: the most frequent element, ties broken by first occurrence
(the sort of most_common is stable on Counter insertion order); `none`
on an empty list, matching the `if l else` guard. -/
def mostCommon (l : List String) : Option String :=
  (firstOccurrences l).foldl
    (fun best a =>
      match best with
      | none => some a
      | some b => if l.count b < l.count a then some a else some b)
    none

/-- Python `min` over a list (src/app.py line 115); `none` on empty. -/
def listMinInt : List Int → Option Int
  | [] => none
  | a :: l => some (l.foldl min a)

/-- The rating-improvement computation of src/app.py lines 121-124:
filter contests to those on/after the year boundary; the start rating is
the oldRating of the first filtered row (else the profile rating, default 0),
the end rating is the newRating of the last filtered row (same fallback);
improvement is their difference. -/
def rating_improvement_calc (contests : List ContestResult) (rating : Option Int)
    (year_start : Int) : Int :=
  let yearly_contests := contests.filter fun c => decide (year_start ≤ c.ratingUpdateTimeSeconds)
  let start_rating :=
    match yearly_contests.head? with
    | some c => c.oldRating
    | none => rating.getD 0
  let end_rating :=
    match yearly_contests.getLast? with
    | some c => c.newRating
    | none => rating.getD 0
  end_rating - start_rating

/-- Round `num / den` to the nearest integer, ties to even (the rounding
of the Python float formatting, taken on the exact rational). -/
def roundHalfEvenDiv (num den : Int) : Int :=
  if den = 0 then 0
  else
    let dp := if den < 0 then -den else den
    let np := if den < 0 then -num else num
    let q := Int.fdiv np dp
    let r := np - q * dp
    if dp < 2 * r then q + 1
    else if 2 * r < dp then q
    else if q % 2 = 0 then q else q + 1

/-- The rational `num / den` rendered with two decimal places, as the
format specifier `.2f` renders a float. -/
def format_2f (num den : Int) : String :=
  let scaled := roundHalfEvenDiv (num * 100) den
  let ip := Int.fdiv scaled 100
  let frac := (scaled - ip * 100).toNat
  let fracStr := if frac < 10 then "0" ++ toString frac else toString frac
  toString ip ++ "." ++ fracStr

/-- The percentile expression of src/app.py line 127: the rating divided
by the reference rating, times 100, rendered to two decimals between
"Top " and "%" when the profile has a rating, else "N/A".  Division by
zero raises a ZeroDivisionError whose message is "division by zero",
modelled as the error case. -/
def global_percentile_calc (rating : Option Int) (highest_rated_user : Int) :
    Except String JVal :=
  match rating with
  | none => .ok (.str "N/A")
  | some r =>
    if highest_rated_user = 0 then .error "division by zero"
    else .ok (.str ("Top " ++ format_2f (r * 100) highest_rated_user ++ "%"))

/-- Insertion into a Python dict with `Bool` keys (the milestone table of
src/app.py lines 134-141): assigning an existing key replaces its value
but keeps its original position; a new key is appended. -/
def pyDictInsert (d : List (Bool × String)) (k : Bool) (v : String) :
    List (Bool × String) :=
  if d.any fun p => p.1 == k then d.map fun p => if p.1 == k then (p.1, v) else p
  else d ++ [(k, v)]

/-- The `milestone_conditions` dict literal of src/app.py lines 134-141,
built with Python dict semantics over boolean keys. -/
def milestone_conditions (total_solved_count : Nat) (current_rank : String)
    (rating : Int) (contests_participated : Nat) (longest_streak : Nat)
    (yearly_solved_count : Nat) : List (Bool × String) :=
  let d := pyDictInsert [] (decide (500 ≤ total_solved_count)) "Solved 500+ problems"
  let d := pyDictInsert d (current_rank == "grandmaster" || current_rank == "legendary grandmaster")
    "Achieved Grandmaster rank"
  let d := pyDictInsert d (decide ((3000 : Int) ≤ rating)) "Reached a rating of 3000+"
  let d := pyDictInsert d (decide (10 ≤ contests_participated)) "Participated in 10+ contests"
  let d := pyDictInsert d (decide (7 ≤ longest_streak)) "Maintained a streak of 7+ days"
  let d := pyDictInsert d (decide (100 ≤ yearly_solved_count)) "Solved 100+ problems this year"
  d

/-- The milestone list comprehension of src/app.py line 144: the messages
of the dict entries whose (boolean) key is truthy. -/
def milestones_calc (total_solved_count : Nat) (current_rank : String)
    (rating : Int) (contests_participated : Nat) (longest_streak : Nat)
    (yearly_solved_count : Nat) : List String :=
  ((milestone_conditions total_solved_count current_rank rating contests_participated
      longest_streak yearly_solved_count).filter fun p => p.1).map fun p => p.2

/-- The aggregation body of src/app.py lines 90-162 (the `try` block after
the upstream payloads are extracted): computes every derived field in
source order and builds the response dictionary of lines 147-160.  The
only partial step is the percentile of line 127 (division by the
reference rating); an exception short-circuits to `Except.error` carrying
the message of the exception, as the `except` of lines 164-166 sees it.
`max_rank` (line 92) and `milestones` (line 144) are computed exactly as
in the source and, as in the source, never placed in the response. -/
def generate_wrapped_core (username : String) (user_data : UserData)
    (submissions : List Submission) (contests : List ContestResult)
    (highest_rated_user : Int) (utcNow tzOffset : Int) :
    Except String (List (String × JVal)) :=
  let current_rank := user_data.rank.getD "N/A"
  let _max_rank := user_data.maxRank.getD "N/A"
  let total_solved := total_solved_calc submissions
  let year_start := localYearStart utcNow tzOffset
  let yearly_solved := yearly_solved_calc submissions year_start
  let longest_streak := longest_streak_calc (solved_days_calc submissions)
  let favorite_topic := (mostCommon (topics_calc submissions)).getD "N/A"
  let highest_rank : JVal :=
    match listMinInt (contests.map fun c => c.rank) with
    | some m => .int m
    | none => .str "N/A"
  let contests_participated := contests.length
  let rating_improvement := rating_improvement_calc contests user_data.rating year_start
  match global_percentile_calc user_data.rating highest_rated_user with
  | .error e => .error e
  | .ok global_percentile =>
  let best_month := (mostCommon (submission_months_calc submissions)).getD "N/A"
  let _milestones := milestones_calc total_solved.card current_rank
    (user_data.rating.getD 0) contests_participated longest_streak yearly_solved.card
  .ok [
    ("username", .str username),
    ("current_rank", .str current_rank),
    ("highest_rank", highest_rank),
    ("longest_streak", .int longest_streak),
    ("problems_solved_this_year", .int yearly_solved.card),
    ("total_problems_solved", .int total_solved.card),
    ("favorite_topic", .str favorite_topic),
    ("contests_participated", .int contests_participated),
    ("rating_improvement", .int rating_improvement),
    ("best_month", .str best_month),
    ("motivational_message", .str "Keep pushing your limits!"),
    ("global_percentile", global_percentile)
  ]

/-- The HTTP outcome of the aggregation part of the route (src/app.py
lines 162 and 164-166): a successful record is returned with status 200;
an exception raised inside the `try` block is caught by the inner
`except` of the route, which returns the message of the exception under
the "error" key with status 500. -/
def generate_wrapped_route (username : String) (user_data : UserData)
    (submissions : List Submission) (contests : List ContestResult)
    (highest_rated_user : Int) (utcNow tzOffset : Int) :
    Nat × List (String × JVal) :=
  match generate_wrapped_core username user_data submissions contests
      highest_rated_user utcNow tzOffset with
  | .ok r => (200, r)
  | .error e => (500, [("error", .str e)])

/-- The message of the app-level exception handler (src/app.py lines
43-51) for non-HTTP exceptions: a generic failure message. -/
def handle_exception_nonhttp_message : String :=
  "An unexpected error occurred"

/-- Outcome of the username validation of src/app.py lines 59-66. -/
inductive RouteResult where
  | badRequest (error : String)
  | invokeAggregation (username : String)
  deriving DecidableEq, Repr

/-- The validation prologue of `generate_wrapped` (src/app.py lines
59-66): a missing or falsy `username` is rejected with "Username is
required"; a truthy value that is not a string, or a string that is not
alphanumeric, is rejected with "Invalid username format"; otherwise the
aggregation proceeds with the handle. -/
def generate_wrapped_validate (username : Option PyVal) : RouteResult :=
  match username with
  | none => .badRequest "Username is required"
  | some v =>
    if !pyTruthy v then .badRequest "Username is required"
    else
      match v with
      | .pystr s =>
        if !pyIsAlnum s then .badRequest "Invalid username format"
        else .invokeAggregation s
      | _ => .badRequest "Invalid username format"

/-- C1: the claim says the returned record carries all the derived fields
of the spec plus the echoed handle, with no field omitted.  On a
successful concrete request the response key list of src/app.py lines
147-160 contains neither "max_rank" nor "milestones", although both
values are computed (lines 92 and 144): the code omits fields the claim
requires. -/
theorem c1_response_omits_max_rank_and_milestones :
    (generate_wrapped_core "alice" ⟨some "newbie", some "pupil", some 1500⟩
        [⟨⟨100, "A", ["dp"]⟩, "OK", 1780000000⟩] [⟨42, 1400, 1500, 1780000000⟩]
        3000 1780000000 0).map (fun r => r.map Prod.fst) =
      .ok ["username", "current_rank", "highest_rank", "longest_streak",
           "problems_solved_this_year", "total_problems_solved", "favorite_topic",
           "contests_participated", "rating_improvement", "best_month",
           "motivational_message", "global_percentile"] ∧
    "max_rank" ∉ ["username", "current_rank", "highest_rank", "longest_streak",
           "problems_solved_this_year", "total_problems_solved", "favorite_topic",
           "contests_participated", "rating_improvement", "best_month",
           "motivational_message", "global_percentile"] ∧
    "milestones" ∉ ["username", "current_rank", "highest_rank", "longest_streak",
           "problems_solved_this_year", "total_problems_solved", "favorite_topic",
           "contests_participated", "rating_improvement", "best_month",
           "motivational_message", "global_percentile"] := by
  refine ⟨by rfl, by decide, by decide⟩

/-- C2: with zero accepted submissions the favorite topic and best month
degrade to "N/A" and both solved counts are 0, as the claim says, but the
streak loop of src/app.py lines 101-108 yields 1, not the claimed 0: it
starts `current_streak` at 1 and ends with `max(longest, current)` even
when no solved day exists. -/
theorem c2_zero_accepted_submissions (subs : List Submission) (ys : Int)
    (h : subs.filter accepted = []) :
    longest_streak_calc (solved_days_calc subs) = 1 ∧
    (mostCommon (topics_calc subs)).getD "N/A" = "N/A" ∧
    (mostCommon (submission_months_calc subs)).getD "N/A" = "N/A" ∧
    (total_solved_calc subs).card = 0 ∧
    (yearly_solved_calc subs ys).card = 0 := by
  have hall : ∀ s ∈ subs, ¬(accepted s = true) := List.filter_eq_nil_iff.mp h
  have hyearly : subs.filter (fun s => accepted s && decide (ys ≤ s.creationTimeSeconds)) = [] := by
    refine List.filter_eq_nil_iff.mpr fun s hs => ?_
    simp [Bool.eq_false_iff.mpr (hall s hs)]
  refine ⟨?_, ?_, ?_, ?_, ?_⟩
  · simp [solved_days_calc, h, sortInts, longest_streak_calc]
  · simp [topics_calc, h, mostCommon, firstOccurrences]
  · simp [submission_months_calc, h, mostCommon, firstOccurrences]
  · simp [total_solved_calc, h]
  · simp [yearly_solved_calc, hyearly]

/-- Witness for `c2_zero_accepted_submissions` at a concrete submission
list with no accepted entries. -/
theorem c2_zero_accepted_submissions_witness :
    longest_streak_calc (solved_days_calc [⟨⟨1, "A", ["dp"]⟩, "WRONG_ANSWER", 1780000000⟩]) = 1 ∧
    (mostCommon (topics_calc [⟨⟨1, "A", ["dp"]⟩, "WRONG_ANSWER", 1780000000⟩])).getD "N/A" = "N/A" ∧
    (mostCommon (submission_months_calc [⟨⟨1, "A", ["dp"]⟩, "WRONG_ANSWER", 1780000000⟩])).getD "N/A" = "N/A" ∧
    (total_solved_calc [⟨⟨1, "A", ["dp"]⟩, "WRONG_ANSWER", 1780000000⟩]).card = 0 ∧
    (yearly_solved_calc [⟨⟨1, "A", ["dp"]⟩, "WRONG_ANSWER", 1780000000⟩] 0).card = 0 :=
  c2_zero_accepted_submissions [⟨⟨1, "A", ["dp"]⟩, "WRONG_ANSWER", 1780000000⟩] 0 (by decide)

/-- C3: with 500 distinct solved problems and rank "grandmaster" (and no
other predicate true) the claim expects both milestone messages in
declared order, but the boolean-keyed dict of src/app.py lines 134-141
collides the two true-keyed entries: only "Achieved Grandmaster rank"
survives and "Solved 500+ problems" is lost. -/
theorem c3_milestone_boolean_key_collision :
    milestones_calc 500 "grandmaster" 0 0 1 0 = ["Achieved Grandmaster rank"] ∧
    "Solved 500+ problems" ∉ milestones_calc 500 "grandmaster" 0 0 1 0 := by
  refine ⟨by decide, by decide⟩

/-- C4 counterexample: with a server at UTC offset +3600 s during 2026, a
submission at epoch 1767225599 (one second before 2026-01-01 00:00:00
UTC) is counted as solved this year by the cutoff of src/app.py line 96,
although its timestamp is strictly before the UTC start of the year that
the claim prescribes. -/
theorem c4_counterexample_local_boundary :
    probId ⟨⟨100, "A", []⟩, "OK", 1767225599⟩ ∈
      yearly_solved_calc [⟨⟨100, "A", []⟩, "OK", 1767225599⟩]
        (localYearStart 1780000000 3600) ∧
    (1767225599 : Int) < spec_utc_year_start 1780000000 := by
  refine ⟨by decide, by decide⟩

/-- C4 (amended): an accepted submission is counted as solved this year
exactly when its timestamp is on/after the start of the current calendar
year in the local timezone of the server (src/app.py line 96 builds the
cutoff from `datetime.now()` and a naive `timestamp()`); when the server
runs at UTC offset zero this boundary coincides with the UTC boundary the
spec describes. -/
theorem c4_year_boundary_is_local (utcNow tzOffset : Int) (subs : List Submission) :
    (∀ pid : String,
      pid ∈ yearly_solved_calc subs (localYearStart utcNow tzOffset) ↔
        ∃ s ∈ subs, accepted s = true ∧
          localYearStart utcNow tzOffset ≤ s.creationTimeSeconds ∧ probId s = pid) ∧
    localYearStart utcNow 0 = spec_utc_year_start utcNow := by
  constructor
  · intro pid
    simp only [yearly_solved_calc, List.mem_toFinset, List.mem_map, List.mem_filter,
      Bool.and_eq_true, decide_eq_true_eq]
    constructor
    · rintro ⟨s, ⟨hs, hacc, hts⟩, rfl⟩
      exact ⟨s, hs, hacc, hts, rfl⟩
    · rintro ⟨s, hs, hacc, hts, rfl⟩
      exact ⟨s, ⟨hs, hacc, hts⟩, rfl⟩
  · simp [localYearStart, spec_utc_year_start]

/-- C5: when the profile has a rating and the reference top-user rating
is 0, the percentile expression of src/app.py line 127 raises a
ZeroDivisionError, so the aggregation produces an error and never a
record (no infinite or NaN percentile can be returned). -/
theorem c5_zero_reference_rating_errors (username : String) (user_data : UserData)
    (subs : List Submission) (contests : List ContestResult)
    (utcNow tzOffset r : Int) (h : user_data.rating = some r) :
    generate_wrapped_core username user_data subs contests 0 utcNow tzOffset =
      .error "division by zero" := by
  simp [generate_wrapped_core, global_percentile_calc, h]

/-- Witness for `c5_zero_reference_rating_errors` at a concrete profile
with rating 1500 and reference rating 0. -/
theorem c5_zero_reference_rating_errors_witness :
    generate_wrapped_core "carol" ⟨some "expert", none, some 1500⟩ [] [] 0 1780000000 0 =
      .error "division by zero" :=
  c5_zero_reference_rating_errors "carol" ⟨some "expert", none, some 1500⟩ [] []
    1780000000 0 1500 rfl

/-- C6: rating improvement restricts contests to those on/after the year
boundary; when that filtered list is empty the improvement is 0, and when
it is non-empty it is the newRating of its last element minus the
oldRating of its first element (src/app.py lines 121-124). -/
theorem c6_rating_improvement_shape (contests : List ContestResult)
    (rating : Option Int) (ys : Int) :
    ((contests.filter fun c => decide (ys ≤ c.ratingUpdateTimeSeconds)) = [] →
      rating_improvement_calc contests rating ys = 0) ∧
    (∀ cfirst clast,
      (contests.filter fun c => decide (ys ≤ c.ratingUpdateTimeSeconds)).head? = some cfirst →
      (contests.filter fun c => decide (ys ≤ c.ratingUpdateTimeSeconds)).getLast? = some clast →
      rating_improvement_calc contests rating ys = clast.newRating - cfirst.oldRating) := by
  constructor
  · intro h
    simp [rating_improvement_calc, h]
  · intro cfirst clast h1 h2
    simp [rating_improvement_calc, h1, h2]

/-- Witness for `c6_rating_improvement_shape` on a concrete two-contest
history entirely inside the year. -/
theorem c6_rating_improvement_shape_witness :
    rating_improvement_calc [⟨5, 1400, 1460, 100⟩, ⟨6, 1460, 1520, 200⟩] none 0 = 120 := by
  have h := (c6_rating_improvement_shape [⟨5, 1400, 1460, 100⟩, ⟨6, 1460, 1520, 200⟩] none 0).2
    ⟨5, 1400, 1460, 100⟩ ⟨6, 1460, 1520, 200⟩ (by decide) (by decide)
  simpa using h

/-- C7: the yearly solved set filters the same accepted submissions with
one more condition, so its cardinality never exceeds the all-time solved
count (src/app.py lines 95-97). -/
theorem c7_total_ge_yearly (subs : List Submission) (ys : Int) :
    (yearly_solved_calc subs ys).card ≤ (total_solved_calc subs).card := by
  apply Finset.card_le_card
  intro pid hpid
  simp only [yearly_solved_calc, total_solved_calc, List.mem_toFinset, List.mem_map,
    List.mem_filter, Bool.and_eq_true] at hpid ⊢
  obtain ⟨s, ⟨hs, hacc, _⟩, rfl⟩ := hpid
  exact ⟨s, ⟨hs, hacc⟩, rfl⟩

/-- C8: appending a duplicate accepted submission (same problem identity
as one already solved, and already solved this year) leaves both solved
sets unchanged, while its tags and its month each gain one tally entry
(src/app.py lines 95-97 versus lines 111 and 130). -/
theorem c8_duplicates_count_once_in_sets (subs : List Submission) (s : Submission)
    (ys : Int) (hacc : accepted s = true)
    (hdup : probId s ∈ total_solved_calc subs)
    (hydup : probId s ∈ yearly_solved_calc subs ys)
    (hts : ys ≤ s.creationTimeSeconds) :
    total_solved_calc (subs ++ [s]) = total_solved_calc subs ∧
    yearly_solved_calc (subs ++ [s]) ys = yearly_solved_calc subs ys ∧
    topics_calc (subs ++ [s]) = topics_calc subs ++ s.problem.tags ∧
    submission_months_calc (subs ++ [s]) =
      submission_months_calc subs ++ [monthOf s.creationTimeSeconds] := by
  refine ⟨?_, ?_, ?_, ?_⟩
  · simp only [total_solved_calc, List.filter_append, List.map_append, List.toFinset_append]
    have hs : [s].filter accepted = [s] := by simp [hacc]
    rw [hs]
    simp only [List.map_cons, List.map_nil, List.toFinset_cons, List.toFinset_nil,
      insert_emptyc_eq]
    rw [Finset.union_eq_left, Finset.singleton_subset_iff]
    exact hdup
  · simp only [yearly_solved_calc, List.filter_append, List.map_append, List.toFinset_append]
    have hs : [s].filter (fun t => accepted t && decide (ys ≤ t.creationTimeSeconds)) = [s] := by
      simp [hacc, hts]
    rw [hs]
    simp only [List.map_cons, List.map_nil, List.toFinset_cons, List.toFinset_nil,
      insert_emptyc_eq]
    rw [Finset.union_eq_left, Finset.singleton_subset_iff]
    exact hydup
  · simp [topics_calc, List.filter_append, hacc]
  · simp [submission_months_calc, List.filter_append, hacc]

/-- Witness for `c8_duplicates_count_once_in_sets` with a concrete
duplicate accepted submission of problem 1-A. -/
theorem c8_duplicates_count_once_in_sets_witness :
    total_solved_calc ([⟨⟨1, "A", ["dp"]⟩, "OK", 100⟩] ++ [⟨⟨1, "A", ["dp"]⟩, "OK", 86500⟩]) =
      total_solved_calc [⟨⟨1, "A", ["dp"]⟩, "OK", 100⟩] ∧
    yearly_solved_calc ([⟨⟨1, "A", ["dp"]⟩, "OK", 100⟩] ++ [⟨⟨1, "A", ["dp"]⟩, "OK", 86500⟩]) 0 =
      yearly_solved_calc [⟨⟨1, "A", ["dp"]⟩, "OK", 100⟩] 0 ∧
    topics_calc ([⟨⟨1, "A", ["dp"]⟩, "OK", 100⟩] ++ [⟨⟨1, "A", ["dp"]⟩, "OK", 86500⟩]) =
      topics_calc [⟨⟨1, "A", ["dp"]⟩, "OK", 100⟩] ++ ["dp"] ∧
    submission_months_calc ([⟨⟨1, "A", ["dp"]⟩, "OK", 100⟩] ++ [⟨⟨1, "A", ["dp"]⟩, "OK", 86500⟩]) =
      submission_months_calc [⟨⟨1, "A", ["dp"]⟩, "OK", 100⟩] ++ [monthOf 86500] :=
  c8_duplicates_count_once_in_sets [⟨⟨1, "A", ["dp"]⟩, "OK", 100⟩]
    ⟨⟨1, "A", ["dp"]⟩, "OK", 86500⟩ 0 (by decide) (by decide) (by decide) (by decide)

/-- C9 counterexample: an aggregation failure (zero reference rating) is
surfaced by the inner `except` of src/app.py line 166 with the raw
exception text "division by zero" in the body, not the generic message of
the app-level handler: internal exception detail reaches the caller. -/
theorem c9_counterexample_detail_leaks :
    generate_wrapped_route "dave" ⟨some "expert", none, some 1500⟩ [] [] 0 1780000000 0 =
      (500, [("error", JVal.str "division by zero")]) ∧
    "division by zero" ≠ handle_exception_nonhttp_message := by
  refine ⟨by decide, by decide⟩

/-- C9 (amended): a failure inside the aggregation try-block is surfaced
to the caller as a 500 response whose message is the exception detail
itself (src/app.py line 166); the generic message of `handle_exception`
(lines 43-51) applies only to exceptions the route does not catch. -/
theorem c9_aggregation_error_surfaces_detail (username : String) (user_data : UserData)
    (subs : List Submission) (contests : List ContestResult)
    (highest_rated_user utcNow tzOffset : Int) (e : String)
    (h : generate_wrapped_core username user_data subs contests
        highest_rated_user utcNow tzOffset = .error e) :
    generate_wrapped_route username user_data subs contests
        highest_rated_user utcNow tzOffset = (500, [("error", JVal.str e)]) := by
  simp [generate_wrapped_route, h]

/-- Witness for `c9_aggregation_error_surfaces_detail` on a concrete
failing aggregation. -/
theorem c9_aggregation_error_surfaces_detail_witness :
    generate_wrapped_route "erin" ⟨none, none, some 2000⟩ [] [] 0 1780000000 0 =
      (500, [("error", JVal.str "division by zero")]) :=
  c9_aggregation_error_surfaces_detail "erin" ⟨none, none, some 2000⟩ [] [] 0
    1780000000 0 "division by zero" (by rfl)

/-- C10: a username value that is present and truthy but not a string is
rejected by the isinstance check of src/app.py line 65 with "Invalid
username format", and the aggregation is never invoked. -/
theorem c10_truthy_nonstring_rejected (v : PyVal) (ht : pyTruthy v = true)
    (hs : ∀ s, v ≠ PyVal.pystr s) :
    generate_wrapped_validate (some v) = .badRequest "Invalid username format" := by
  cases v with
  | pynull => simp [generate_wrapped_validate, ht]
  | pybool b => simp [generate_wrapped_validate, ht]
  | pyint n => simp [generate_wrapped_validate, ht]
  | pystr s => exact absurd rfl (hs s)
  | pylist l => simp [generate_wrapped_validate, ht]

/-- Witness for `c10_truthy_nonstring_rejected` at the JSON number 7. -/
theorem c10_truthy_nonstring_rejected_witness :
    generate_wrapped_validate (some (PyVal.pyint 7)) = .badRequest "Invalid username format" :=
  c10_truthy_nonstring_rejected (PyVal.pyint 7) (by decide)
    (fun s h => PyVal.noConfusion h)
